import Mathlib

/-!
Verification development for the gitu interaction engine.

This file gives a shallow embedding of `src/main.rs` and `src/ui.rs`:
the key-event dispatch (`handle_action`, `handle_target_action`), the
screen-stack state machine of `run_app` / `handle_events`, the editor
command construction (`editor_cmd`), the foreground hand-off
(`open_subscreen`) and the popup selection of `ui::ui`.

Modules of the repository that are referenced from `main.rs` but whose
source is not part of `src/` (`diff`, `screen`, `items`, `keybinds`,
`git`, `command`) are modelled from the specification; every such
definition carries a doc comment starting with `Modelled from the spec:`.
External I/O (process spawning, terminal control) is represented by
explicit outcome parameters or by recording the invocation in the state.
-/

namespace Gitu

/-- Modelled from the spec: origin tag of a `DiffLine`
(`diff` module is outside `src/`). -/
inductive Origin
| context
| addition
| deletion
deriving DecidableEq

/-- Modelled from the spec: one line of a diff hunk, an origin tag plus the
raw text (`diff` module is outside `src/`). -/
structure DiffLine where
  origin : Origin
  text : String
deriving DecidableEq

/-- Modelled from the spec: a contiguous change region within a delta,
carrying the owning file's old/new paths, the old/new line ranges and the
ordered diff lines (`diff` module is outside `src/`; `main.rs` accesses the
fields `new_file` and `new_start`). -/
structure Hunk where
  old_file : String
  new_file : String
  old_start : Nat
  old_count : Nat
  new_start : Nat
  new_count : Nat
  lines : List DiffLine
deriving DecidableEq

/-- Modelled from the spec: status of a changed file. -/
inductive DeltaStatus
| added
| modified
| deleted
| renamed
deriving DecidableEq

/-- Modelled from the spec: the set of changes to one file
(`diff` module is outside `src/`; `main.rs` accesses `new_file`). -/
structure Delta where
  old_file : String
  new_file : String
  status : DeltaStatus
  hunks : List Hunk
deriving DecidableEq

/-- Modelled from the spec: the origin marker character emitted for a diff
line in a synthesized patch. -/
def Origin.marker : Origin → String
  | .context => " "
  | .addition => "+"
  | .deletion => "-"

/-- Modelled from the spec: patch synthesis (§4.1) — a standalone patch made
of the owning file's two headers, the hunk header with the hunk's own
old/new start and count, and the body lines each reproducing the origin
marker and text. Both `Stage` and `Unstage` on a hunk send exactly these
bytes (`main.rs` lines 196 and 209). -/
def Hunk.format_patch (h : Hunk) : String :=
  "--- a/" ++ h.old_file ++ "\n" ++
  "+++ b/" ++ h.new_file ++ "\n" ++
  "@@ -" ++ toString h.old_start ++ "," ++ toString h.old_count ++
  " +" ++ toString h.new_start ++ "," ++ toString h.new_count ++ " @@\n" ++
  String.join (h.lines.map (fun l => l.origin.marker ++ l.text ++ "\n"))

/-- The `Actionable` payload of an item (`items` module is outside `src/`;
the variants and their payloads are exactly those matched on in
`handle_target_action` of `main.rs`). -/
inductive Actionable
| Ref (name : String)
| Untracked (path : String)
| Delta (d : Delta)
| Hunk (h : Hunk)
| DiffLine (l : DiffLine)
deriving DecidableEq

/-- Target-scoped operations (`keybinds::TargetOp`; the variants are those
matched on in `handle_target_action` of `main.rs`). -/
inductive TargetOp
| ShowOrEdit
| Stage
| Unstage
deriving DecidableEq

/-- Operations (`keybinds::Op`; the variants are those matched on in
`handle_action` of `main.rs`). -/
inductive Op
| Quit
| Refresh
| ToggleSection
| SelectPrevious
| SelectNext
| HalfPageUp
| HalfPageDown
| Log
| Fetch
| Commit
| Push
| Pull
| Target (t : TargetOp)
deriving DecidableEq

/-- The external tool commands constructed by the `git` module (outside
`src/`); `main.rs` only ever passes them to `issue_command` or
`open_subscreen`, so they are represented by their identity. The payloads
are exactly the arguments passed at the call sites in `main.rs`. -/
inductive GitCmd
| fetchAll
| push
| pull
| commit
| stageFile (path : String)
| unstageFile (d : Delta)
| stagePatch
| unstagePatch
deriving DecidableEq

/-- Modelled from the spec: the command line each `GitCmd` stands for —
apply-patch-to-index with an optional reverse flag for unstage (§6). -/
def GitCmd.argv : GitCmd → List String
  | .fetchAll => ["git", "fetch", "--all"]
  | .push => ["git", "push"]
  | .pull => ["git", "pull"]
  | .commit => ["git", "commit"]
  | .stageFile path => ["git", "add", path]
  | .unstageFile d => ["git", "restore", "--staged", d.new_file]
  | .stagePatch => ["git", "apply", "--cached"]
  | .unstagePatch => ["git", "apply", "--cached", "--reverse"]

/-- The distinct process-aborting panics reachable from the embedded code:
the `No screen` guards of `handle_events` / `handle_action` /
`handle_target_action`, the unimplemented (`Actionable` × `TargetOp`)
match arms, the `EDITOR not set` expect of `editor_cmd`, and the panic of
`Vec::drain` on an out-of-range start. -/
inductive Panic
| noScreen
| todoUnimplemented
| editorNotSet
| drainOutOfBounds
deriving DecidableEq

/-- A `std::process::Command` built by `editor_cmd`: the program to run and
its argument list. -/
structure EditorCmd where
  program : String
  args : List String
deriving DecidableEq

/-- `editor_cmd` of `main.rs` (lines 231-246): the `EDITOR` environment
variable is read and, when absent, the `expect` aborts the process (the
`Except.error Panic.editorNotSet` branch). With a hunk, the editors `vi`,
`vim`, `nvim` and `nano` get the argument list `["+<new_start>", path]`;
any other editor gets the single argument `"<path>:<new_start>"`; with no
hunk, the path alone. The ambient environment is passed explicitly. -/
def editor_cmd (editorEnv : Option String) (delta : String)
    (maybe_hunk : Option Hunk) : Except Panic EditorCmd :=
  match editorEnv with
  | none => .error .editorNotSet
  | some editor =>
    let args :=
      match maybe_hunk with
      | some hunk =>
        if editor = "vi" ∨ editor = "vim" ∨ editor = "nvim" ∨ editor = "nano" then
          ["+" ++ toString hunk.new_start, delta]
        else
          [delta ++ ":" ++ toString hunk.new_start]
      | none => [delta]
    .ok { program := editor, args := args }

/-- The effect performed by one invocation of `handle_target_action`:
no actionable present (silent no-op), a pushed show screen, a foreground
editor hand-off followed by a refresh, a background command issued with
the given stdin bytes followed by a refresh, or a process-aborting panic
(`todo` arm or missing `EDITOR`). -/
inductive TargetOutcome
| noop
| showScreen (reference : String)
| subscreen (cmd : EditorCmd)
| issue (input : String) (cmd : GitCmd)
| panic (p : Panic)
deriving DecidableEq

/-- The dispatch of `handle_target_action` in `main.rs` (lines 159-218):
given the selected item's `Actionable` (if any) and the target op, the
effect performed. The `todo` arms are the `TargetOutcome.panic
Panic.todoUnimplemented` results; the stateful interpretation of each
outcome is in `handle_action` below. -/
def handle_target_action (editorEnv : Option String)
    (act : Option Actionable) (target_action : TargetOp) : TargetOutcome :=
  match act with
  | none => .noop
  | some act =>
    match target_action, act with
    | .ShowOrEdit, .Ref r => .showScreen r
    | .ShowOrEdit, .Untracked f =>
      match editor_cmd editorEnv f none with
      | .error p => .panic p
      | .ok c => .subscreen c
    | .ShowOrEdit, .Delta d =>
      match editor_cmd editorEnv d.new_file none with
      | .error p => .panic p
      | .ok c => .subscreen c
    | .ShowOrEdit, .Hunk h =>
      match editor_cmd editorEnv h.new_file (some h) with
      | .error p => .panic p
      | .ok c => .subscreen c
    | .ShowOrEdit, .DiffLine _ => .panic .todoUnimplemented
    | .Stage, .Ref _ => .panic .todoUnimplemented
    | .Stage, .Untracked u => .issue "" (.stageFile u)
    | .Stage, .Delta d => .issue "" (.stageFile d.new_file)
    | .Stage, .Hunk h => .issue h.format_patch .stagePatch
    | .Stage, .DiffLine _ => .panic .todoUnimplemented
    | .Unstage, .Ref _ => .panic .todoUnimplemented
    | .Unstage, .Untracked _ => .panic .todoUnimplemented
    | .Unstage, .Delta d => .issue "" (.unstageFile d)
    | .Unstage, .Hunk h => .issue h.format_patch .unstagePatch
    | .Unstage, .DiffLine _ => .panic .todoUnimplemented

/-- The kind of a screen together with the arguments given to its collector
(`screen::status::create`, `screen::log::create`, `screen::show::create`
at the call sites in `main.rs`). -/
inductive ScreenKind
| status
| log (args : List String)
| show (args : List String)
deriving DecidableEq

/-- Modelled from the spec: a `Screen` (§3; the `screen` module is outside
`src/`). The embedding keeps the fields that the `main.rs` event loop
reads or writes: the terminal size, the cursor into the flattened visible
item list, the visible item count, the selected item's `Actionable`
payload (`get_selected_item().act`), a count of `refresh_items`
invocations, the trace of background commands issued with their stdin
bytes, and whether a finished command's output is still displayed. -/
structure Screen where
  kind : ScreenKind
  size : Nat × Nat
  cursor : Nat
  visibleCount : Nat
  selectedAct : Option Actionable
  refreshCount : Nat
  issued : List (String × GitCmd)
  commandShown : Bool
deriving DecidableEq

/-- Modelled from the spec: creation of a fresh screen of the given kind
sized to the current terminal (`screen::*::create`); its items come from
an external query, so the embedding starts them empty. -/
def Screen.create (kind : ScreenKind) (size : Nat × Nat) : Screen :=
  { kind := kind, size := size, cursor := 0, visibleCount := 0,
    selectedAct := none, refreshCount := 0, issued := [], commandShown := false }

/-- Modelled from the spec: `refresh_items` re-invokes the screen-kind's
collector and rebuilds all items from a fresh external query (§4.4). The
query's result is outside the embedding, so the item data is left in
place and the invocation is recorded by incrementing `refreshCount`. -/
def Screen.refresh_items (s : Screen) : Screen :=
  { s with refreshCount := s.refreshCount + 1 }

/-- Modelled from the spec: `clamp_cursor` pins the cursor into
`[0, visibleCount - 1]`, or to `0` when the visible list is empty (§4.4). -/
def Screen.clamp_cursor (s : Screen) : Screen :=
  { s with cursor := if s.visibleCount = 0 then 0 else min s.cursor (s.visibleCount - 1) }

/-- Modelled from the spec: `toggle_section` flips the collapse flag of the
section under the cursor (§3); the section data is outside the embedding,
so the stack- and cursor-relevant fields are unchanged. -/
def Screen.toggle_section (s : Screen) : Screen :=
  s

/-- Modelled from the spec: move the selection one line up. -/
def Screen.select_previous (s : Screen) : Screen :=
  { s with cursor := s.cursor - 1 }

/-- Modelled from the spec: move the selection one line down. -/
def Screen.select_next (s : Screen) : Screen :=
  { s with cursor := s.cursor + 1 }

/-- Modelled from the spec: move the selection half a page up. -/
def Screen.scroll_half_page_up (s : Screen) : Screen :=
  { s with cursor := s.cursor - s.size.2 / 2 }

/-- Modelled from the spec: move the selection half a page down. -/
def Screen.scroll_half_page_down (s : Screen) : Screen :=
  { s with cursor := s.cursor + s.size.2 / 2 }

/-- Modelled from the spec: `issue_command` spawns a background command with
the given stdin bytes (§4.3); the embedding records the invocation and
marks a command as displayed. -/
def Screen.issue_command (s : Screen) (input : String) (cmd : GitCmd) : Screen :=
  { s with issued := s.issued ++ [(input, cmd)], commandShown := true }

/-- Modelled from the spec: `clear_finished_command` dismisses a finished
command's displayed output on the next key press (§3). -/
def Screen.clear_finished_command (s : Screen) : Screen :=
  { s with commandShown := false }

/-- Modelled from the spec: `handle_command_output` polls the in-flight
background command's buffer (§4.3); the buffer contents are outside the
embedding, so the navigation-relevant fields are unchanged. -/
def Screen.handle_command_output (s : Screen) : Screen :=
  s

/-- The application state of `main.rs`: the quit flag and the screen stack
(`struct State`), together with the ambient inputs `main.rs` reads —
the terminal size (`terminal::size()`) and the `EDITOR` environment
variable. The last list element is the top (active) screen, matching
`Vec::last_mut`. -/
structure AppState where
  quit : Bool
  screens : List Screen
  termSize : Nat × Nat
  editorEnv : Option String
deriving DecidableEq

/-- Apply `f` to the last element of the list, the embedding of mutating
through `Vec::last_mut` — the identity on the empty list, matching
`if let Some(screen) = state.screens.last_mut()`. -/
def modifyLast (f : Screen → Screen) : List Screen → List Screen
  | [] => []
  | [a] => [f a]
  | a :: b :: rest => a :: modifyLast f (b :: rest)

/-- Apply `f` to the active (top) screen of the stack. -/
def modifyTop (f : Screen → Screen) (st : AppState) : AppState :=
  { st with screens := modifyLast f st.screens }

/-- `goto_log_screen` of `main.rs` (lines 225-229): `screens.drain(1..)`
discards everything above the root, then a fresh log screen is pushed.
`Vec::drain(1..)` panics when the vector is empty (start 1 exceeds the
length), hence the error branch. -/
def goto_log_screen (size : Nat × Nat) (screens : List Screen) :
    Except Panic (List Screen) :=
  if screens.isEmpty then .error .drainOutOfBounds
  else .ok (screens.take 1 ++ [Screen.create (.log []) size])

/-- `goto_show_screen` of `main.rs` (lines 220-223): push a show screen for
the given reference, sized to the current terminal. -/
def goto_show_screen (size : Nat × Nat) (reference : String)
    (screens : List Screen) : List Screen :=
  screens ++ [Screen.create (.show [reference]) size]

/-- `handle_action` of `main.rs` (lines 125-157) together with the stateful
interpretation of `handle_target_action` (lines 159-218). The top screen
is fetched first (`Panic.noScreen` when the stack is empty — the
`No screen` guard); an unresolved key (`action = none`) changes nothing.
`Commit` runs a foreground hand-off (modelled separately by
`open_subscreen`) and then refreshes; `Fetch` issues a background command
and refreshes; `Push`/`Pull` issue without refreshing. The `Target`
branch re-fetches the top screen exactly as the source does, then
interprets the dispatched `TargetOutcome`. -/
def handle_action (st : AppState) (action : Option Op) : Except Panic AppState :=
  match st.screens.getLast? with
  | none => .error .noScreen
  | some _ =>
    match action with
    | none => .ok st
    | some op =>
      match op with
      | .Quit => .ok { st with quit := true }
      | .Refresh => .ok (modifyTop Screen.refresh_items st)
      | .ToggleSection => .ok (modifyTop Screen.toggle_section st)
      | .SelectPrevious => .ok (modifyTop Screen.select_previous st)
      | .SelectNext => .ok (modifyTop Screen.select_next st)
      | .HalfPageUp => .ok (modifyTop Screen.scroll_half_page_up st)
      | .HalfPageDown => .ok (modifyTop Screen.scroll_half_page_down st)
      | .Log =>
        match goto_log_screen st.termSize st.screens with
        | .error p => .error p
        | .ok ss => .ok { st with screens := ss }
      | .Fetch =>
        .ok (modifyTop (fun s => (s.issue_command "" .fetchAll).refresh_items) st)
      | .Commit => .ok (modifyTop Screen.refresh_items st)
      | .Push => .ok (modifyTop (fun s => s.issue_command "" .push) st)
      | .Pull => .ok (modifyTop (fun s => s.issue_command "" .pull) st)
      | .Target t =>
        match st.screens.getLast? with
        | none => .error .noScreen
        | some screen =>
          match handle_target_action st.editorEnv screen.selectedAct t with
          | .noop => .ok st
          | .showScreen r =>
            .ok { st with screens := goto_show_screen st.termSize r st.screens }
          | .subscreen _ => .ok (modifyTop Screen.refresh_items st)
          | .issue input cmd =>
            .ok (modifyTop (fun s => (s.issue_command input cmd).refresh_items) st)
          | .panic p => .error p

/-- One terminal event as seen by `handle_events`: `pollTimeout` is
`event::poll` returning false; a key press carries the op resolved by
`keybinds::action_of_key_event` (the `keybinds` module is outside
`src/`); `keyRelease` is a key event whose kind is not `Press`. -/
inductive EventInput
| pollTimeout
| resize (w h : Nat)
| keyPress (action : Option Op)
| keyRelease
| other
deriving DecidableEq

/-- The quit-handling tail of `handle_events` (lines 114-120): when the quit
flag is set, the top screen is popped; if a screen remains beneath, the
quit flag is reset and that screen is refreshed, otherwise the stack
stays empty and the flag stays set (the exit signal). -/
def pop_on_quit (st : AppState) : AppState :=
  if st.quit then
    let popped := st.screens.dropLast
    match popped.getLast? with
    | some _ => { st with quit := false, screens := modifyLast Screen.refresh_items popped }
    | none => { st with screens := popped }
  else st

/-- `handle_events` of `main.rs` (lines 92-123): a poll timeout returns at
once; otherwise the top screen is fetched (`Panic.noScreen` — the
`No screen` guard), the event is handled (a resize updates the top
screen's size; a key press first clears any finished command's display,
then runs `handle_action`), and finally the quit flag is acted on. -/
def handle_events (st : AppState) (ev : EventInput) : Except Panic AppState :=
  match ev with
  | .pollTimeout => .ok st
  | _ =>
    match st.screens.getLast? with
    | none => .error .noScreen
    | some _ =>
      let step : Except Panic AppState :=
        match ev with
        | .resize w h => .ok (modifyTop (fun s => { s with size := (w, h) }) st)
        | .keyPress a => handle_action (modifyTop Screen.clear_finished_command st) a
        | _ => .ok st
      match step with
      | .error p => .error p
      | .ok st1 => .ok (pop_on_quit st1)

/-- One iteration of the `run_app` loop body (lines 76-87): reconcile any
finished background command on the active screen, handle one event, then
clamp the active screen's cursor. Drawing is pure rendering and is
omitted. -/
def loop_iter (st : AppState) (ev : EventInput) : Except Panic AppState :=
  match handle_events (modifyTop Screen.handle_command_output st) ev with
  | .error p => .error p
  | .ok st1 => .ok (modifyTop Screen.clamp_cursor st1)

/-- `run_app` of `main.rs` (lines 75-90), fuel-indexed: while the quit flag
is unset, run one loop iteration on the next event; when the flag is set
the loop exits without handling further events. -/
def run_app (fuel : Nat) (st : AppState) (evs : List EventInput) :
    Except Panic AppState :=
  match fuel with
  | 0 => .ok st
  | fuel' + 1 =>
    if st.quit then .ok st
    else
      match loop_iter st (evs.headD .pollTimeout) with
      | .error p => .error p
      | .ok st' => run_app fuel' st' evs.tail

/-- The external outcomes `open_subscreen` can observe: whether `spawn`
succeeded, whether the `write_all` to the child's stdin succeeded, and
the result of `wait` — `some exitSuccess` when `wait` itself returned
(with any child exit status), `none` when the wait step failed with an
io error. -/
structure SubscreenWorld where
  spawnOk : Bool
  writeOk : Bool
  waitResult : Option Bool
deriving DecidableEq

/-- The terminal display state that `open_subscreen` is responsible for
restoring before control returns to the main loop. -/
structure TermState where
  cursorHidden : Bool
  cleared : Bool
deriving DecidableEq

/-- `open_subscreen` of `main.rs` (lines 248-268): spawn the child, write
the input bytes to its stdin, wait for it, then hide the cursor and
clear the screen. Each fallible step uses `?`, so a failure returns the
error to the caller immediately — in particular the restore steps run
only after `wait` has returned, though they run for any child exit
status, which `wait` reports as an `Ok`. The returned `Bool` is whether
the function returned `Ok`; the returned `TermState` is the terminal
display state on return. -/
def open_subscreen (w : SubscreenWorld) (t : TermState) : Bool × TermState :=
  if !w.spawnOk then (false, t)
  else if !w.writeOk then (false, t)
  else
    match w.waitResult with
    | none => (false, t)
    | some _ => (true, { cursorHidden := true, cleared := true })

/-- `keybinds::TransientOp` (outside `src/`): identifies which transient
submenu is currently showing; the embedding distinguishes submenus by a
tag. -/
structure TransientOp where
  tag : Nat
deriving DecidableEq

/-- `command::IssuedCommand` as read by `ui.rs`: the displayed command line,
the accumulated output (as lines), and the acknowledged flag. -/
structure IssuedCommand where
  args : String
  output : List String
  finish_acked : Bool
deriving DecidableEq

/-- The state fields read by `ui::ui`: the pending transient op and the
screen's issued command, if any. -/
structure UIState where
  pending_transient_op : Option TransientOp
  command : Option IssuedCommand
deriving DecidableEq

/-- One line of the popup area, tagged by its origin: a transient-menu
keybind listing, the issued command's header line (`$ args`, with a
trailing ellipsis until acknowledged), or one line of the command's
accumulated output. -/
inductive UILine
| transientMenu (t : TransientOp)
| commandHeader (args : String) (acked : Bool)
| commandOutput (line : String)
deriving DecidableEq

/-- `format_command` of `ui.rs` (lines 34-52): the styled header line for
the issued command followed by its accumulated output lines. -/
def format_command (cmd : IssuedCommand) : List UILine :=
  .commandHeader cmd.args cmd.finish_acked :: cmd.output.map .commandOutput

/-- `format_transient_menu` of `ui.rs` (lines 54-65): one styled line
listing the transient menu's keybinds (the listing itself comes from the
`keybinds` module, outside `src/`). -/
def format_transient_menu (transient : TransientOp) : List UILine :=
  [.transientMenu transient]

/-- The popup selection of `ui::ui` (lines 12-18): a pending transient op
takes the popup; otherwise an issued command does; otherwise the popup is
empty. -/
def ui_popup (st : UIState) : List UILine :=
  match st.pending_transient_op with
  | some transient => format_transient_menu transient
  | none =>
    match st.command with
    | some cmd => format_command cmd
    | none => []

/-- The popup area height allocated by `ui::ui` (lines 20-25): the popup's
line count plus one for the border when non-empty, zero otherwise. -/
def ui_popup_len (st : UIState) : Nat :=
  if 0 < (ui_popup st).length then (ui_popup st).length + 1 else 0

/-- The running invariant of the machine: while the quit flag is unset the
screen stack is non-empty (§3, ScreenStack invariant). -/
def AppInv (st : AppState) : Prop :=
  st.quit = false → st.screens ≠ []

theorem modifyLast_length (f : Screen → Screen) :
    ∀ l : List Screen, (modifyLast f l).length = l.length
  | [] => rfl
  | [_] => rfl
  | _ :: b :: rest => by
    simp only [modifyLast, List.length_cons, modifyLast_length f (b :: rest)]

theorem modifyLast_eq_nil_iff (f : Screen → Screen) (l : List Screen) :
    modifyLast f l = [] ↔ l = [] := by
  constructor
  · intro h
    have := modifyLast_length f l
    rw [h] at this
    exact List.length_eq_zero.mp this.symm
  · rintro rfl
    rfl

theorem modifyLast_getLast? (f : Screen → Screen) :
    ∀ l : List Screen, (modifyLast f l).getLast? = l.getLast?.map f
  | [] => rfl
  | [_] => rfl
  | a :: b :: rest => by
    rw [modifyLast, List.getLast?_cons_cons]
    rcases rest with _ | ⟨c, rest⟩
    · rw [modifyLast, List.getLast?_cons_cons]
      rfl
    · rw [modifyLast, List.getLast?_cons_cons, ← modifyLast,
        modifyLast_getLast? f (b :: c :: rest), List.getLast?_cons_cons]

theorem modifyLast_dropLast (f : Screen → Screen) :
    ∀ l : List Screen, (modifyLast f l).dropLast = l.dropLast
  | [] => rfl
  | [_] => rfl
  | a :: b :: rest => by
    rcases rest with _ | ⟨c, rest⟩
    · rfl
    · show (a :: modifyLast f (b :: c :: rest)).dropLast = (a :: (b :: c :: rest)).dropLast
      rw [modifyLast]
      show (a :: b :: modifyLast f (c :: rest)).dropLast = (a :: (b :: c :: rest)).dropLast
      rw [List.dropLast_cons₂, ← modifyLast, modifyLast_dropLast f (b :: c :: rest)]
      simp [List.dropLast_cons₂]

theorem handle_target_action_panic_cases (env : Option String)
    (act : Option Actionable) (t : TargetOp) (p : Panic)
    (h : handle_target_action env act t = .panic p) :
    p = .todoUnimplemented ∨ p = .editorNotSet := by
  rcases act with _ | a
  · simp [handle_target_action] at h
  · rcases env with _ | e <;> rcases t <;> rcases a <;>
      simp_all [handle_target_action, editor_cmd]

theorem handle_action_sound (st : AppState) (a : Option Op)
    (hs : st.screens ≠ []) :
    handle_action st a ≠ .error .noScreen ∧
      ∀ st1, handle_action st a = .ok st1 → st1.screens ≠ [] := by
  obtain ⟨sc, hsc⟩ : ∃ sc, st.screens.getLast? = some sc := by
    cases h : st.screens.getLast? with
    | none => exact absurd (List.getLast?_eq_none_iff.mp h) hs
    | some sc => exact ⟨sc, rfl⟩
  rcases a with _ | op
  · refine ⟨?_, ?_⟩ <;> simp_all [handle_action]
  rcases op with _ | _ | _ | _ | _ | _ | _ | _ | _ | _ | _ | _ | t
  case Quit => refine ⟨?_, ?_⟩ <;> simp_all [handle_action]
  case Refresh =>
    refine ⟨?_, ?_⟩ <;> simp_all [handle_action, modifyTop, modifyLast_eq_nil_iff]
  case ToggleSection =>
    refine ⟨?_, ?_⟩ <;> simp_all [handle_action, modifyTop, modifyLast_eq_nil_iff]
  case SelectPrevious =>
    refine ⟨?_, ?_⟩ <;> simp_all [handle_action, modifyTop, modifyLast_eq_nil_iff]
  case SelectNext =>
    refine ⟨?_, ?_⟩ <;> simp_all [handle_action, modifyTop, modifyLast_eq_nil_iff]
  case HalfPageUp =>
    refine ⟨?_, ?_⟩ <;> simp_all [handle_action, modifyTop, modifyLast_eq_nil_iff]
  case HalfPageDown =>
    refine ⟨?_, ?_⟩ <;> simp_all [handle_action, modifyTop, modifyLast_eq_nil_iff]
  case Log =>
    have hne : st.screens.isEmpty = false := by
      simpa [List.isEmpty_iff] using hs
    refine ⟨?_, ?_⟩ <;> simp_all [handle_action, goto_log_screen]
  case Fetch =>
    refine ⟨?_, ?_⟩ <;> simp_all [handle_action, modifyTop, modifyLast_eq_nil_iff]
  case Commit =>
    refine ⟨?_, ?_⟩ <;> simp_all [handle_action, modifyTop, modifyLast_eq_nil_iff]
  case Push =>
    refine ⟨?_, ?_⟩ <;> simp_all [handle_action, modifyTop, modifyLast_eq_nil_iff]
  case Pull =>
    refine ⟨?_, ?_⟩ <;> simp_all [handle_action, modifyTop, modifyLast_eq_nil_iff]
  case Target =>
    cases hout : handle_target_action st.editorEnv sc.selectedAct t with
    | noop => refine ⟨?_, ?_⟩ <;> simp_all [handle_action]
    | showScreen r =>
      refine ⟨?_, ?_⟩ <;> simp_all [handle_action, goto_show_screen]
    | subscreen c =>
      refine ⟨?_, ?_⟩ <;> simp_all [handle_action, modifyTop, modifyLast_eq_nil_iff]
    | issue input cmd =>
      refine ⟨?_, ?_⟩ <;> simp_all [handle_action, modifyTop, modifyLast_eq_nil_iff]
    | panic p =>
      rcases handle_target_action_panic_cases _ _ _ _ hout with h | h <;>
        refine ⟨?_, ?_⟩ <;> simp_all [handle_action]

theorem pop_on_quit_inv (st : AppState) (hs : st.screens ≠ []) :
    AppInv (pop_on_quit st) := by
  unfold pop_on_quit AppInv
  by_cases hq : st.quit = true
  · simp only [hq, if_true]
    cases h : st.screens.dropLast.getLast? with
    | none => simp_all
    | some s =>
      intro _
      have : st.screens.dropLast ≠ [] := by
        intro hnil
        rw [hnil] at h
        simp at h
      simpa [modifyLast_eq_nil_iff] using this
  · simp only [Bool.not_eq_true] at hq
    simp [hq, hs]

theorem handle_events_sound (st : AppState) (ev : EventInput)
    (hs : st.screens ≠ []) :
    handle_events st ev ≠ .error .noScreen ∧
      ∀ st', handle_events st ev = .ok st' → AppInv st' := by
  obtain ⟨sc, hsc⟩ : ∃ sc, st.screens.getLast? = some sc := by
    cases h : st.screens.getLast? with
    | none => exact absurd (List.getLast?_eq_none_iff.mp h) hs
    | some sc => exact ⟨sc, rfl⟩
  cases ev with
  | pollTimeout =>
    exact ⟨by simp [handle_events], by intro st' h; cases h; exact fun _ => hs⟩
  | resize w h =>
    refine ⟨by simp [handle_events, hsc], ?_⟩
    intro st' hok
    simp only [handle_events, hsc] at hok
    cases hok
    exact pop_on_quit_inv _ (by simpa [modifyTop, modifyLast_eq_nil_iff] using hs)
  | keyPress a =>
    have hs' : (modifyTop Screen.clear_finished_command st).screens ≠ [] := by
      simpa [modifyTop, modifyLast_eq_nil_iff] using hs
    obtain ⟨hne, hok⟩ := handle_action_sound (modifyTop Screen.clear_finished_command st) a hs'
    constructor
    · simp only [handle_events, hsc]
      cases hact : handle_action (modifyTop Screen.clear_finished_command st) a with
      | error p =>
        intro hcontra
        simp only [hact] at hcontra
        cases hcontra
        exact hne hact
      | ok st1 => simp [hact]
    · intro st' h
      simp only [handle_events, hsc] at h
      cases hact : handle_action (modifyTop Screen.clear_finished_command st) a with
      | error p => simp [hact] at h
      | ok st1 =>
        rw [hact] at h
        cases h
        exact pop_on_quit_inv st1 (hok st1 hact)
  | keyRelease =>
    refine ⟨by simp [handle_events, hsc], ?_⟩
    intro st' hok
    simp only [handle_events, hsc] at hok
    cases hok
    exact pop_on_quit_inv st hs
  | other =>
    refine ⟨by simp [handle_events, hsc], ?_⟩
    intro st' hok
    simp only [handle_events, hsc] at hok
    cases hok
    exact pop_on_quit_inv st hs

theorem loop_iter_sound (st : AppState) (ev : EventInput)
    (hq : st.quit = false) (hinv : AppInv st) :
    loop_iter st ev ≠ .error .noScreen ∧
      ∀ st', loop_iter st ev = .ok st' → AppInv st' := by
  have hs : (modifyTop Screen.handle_command_output st).screens ≠ [] := by
    simpa [modifyTop, modifyLast_eq_nil_iff] using hinv hq
  obtain ⟨hne, hok⟩ := handle_events_sound (modifyTop Screen.handle_command_output st) ev hs
  constructor
  · unfold loop_iter
    cases hev : handle_events (modifyTop Screen.handle_command_output st) ev with
    | error p =>
      intro hcontra
      simp only [hev] at hcontra
      cases hcontra
      exact hne hev
    | ok st1 => simp [hev]
  · intro st' h
    unfold loop_iter at h
    cases hev : handle_events (modifyTop Screen.handle_command_output st) ev with
    | error p => simp [hev] at h
    | ok st1 =>
      rw [hev] at h
      cases h
      intro hq'
      have := hok st1 hev
      simp only [modifyTop] at hq' ⊢
      simpa [modifyLast_eq_nil_iff] using this hq'

/-- C2: in every state reachable by the main loop from a state satisfying
the running invariant (the stack is non-empty while the quit flag is
unset — true of the initial state, which has one screen and `quit =
false`), the `No screen` panic branches of `handle_events`,
`handle_action` and `handle_target_action` are unreachable, for any fuel
and any event sequence; and whenever the loop returns with an empty
screen stack, the quit flag is set, so the emptying of the stack is
exactly the exit signal and the loop terminates without handling further
events. -/
theorem no_screen_panic_unreachable (fuel : Nat) (st : AppState)
    (evs : List EventInput) (hinv : st.quit = false → st.screens ≠ []) :
    run_app fuel st evs ≠ Except.error Panic.noScreen ∧
      ∀ st', run_app fuel st evs = Except.ok st' →
        (st'.screens = [] → st'.quit = true) := by
  induction fuel generalizing st evs with
  | zero =>
    constructor
    · simp [run_app]
    · intro st' h
      simp only [run_app] at h
      cases h
      intro hnil
      by_contra hq
      simp only [Bool.not_eq_true] at hq
      exact hinv hq hnil
  | succ n ih =>
    by_cases hq : st.quit = true
    · constructor
      · intro hcontra
        unfold run_app at hcontra
        rw [if_pos hq] at hcontra
        cases hcontra
      · intro st' h
        unfold run_app at h
        rw [if_pos hq] at h
        cases h
        exact fun _ => hq
    · have hq0 : st.quit = false := by simpa using hq
      obtain ⟨hne, hok⟩ := loop_iter_sound st (evs.headD .pollTimeout) hq0 hinv
      cases hli : loop_iter st (evs.headD .pollTimeout) with
      | error p =>
        have hp : p ≠ Panic.noScreen := fun hcontra => hne (hcontra ▸ hli)
        constructor
        · intro hcontra
          unfold run_app at hcontra
          rw [if_neg hq, hli] at hcontra
          cases hcontra
          exact hp rfl
        · intro st' h
          unfold run_app at h
          rw [if_neg hq, hli] at h
          cases h
      | ok st1 =>
        obtain ⟨ihne, ihok⟩ := ih st1 evs.tail (hok st1 hli)
        constructor
        · intro hcontra
          unfold run_app at hcontra
          rw [if_neg hq, hli] at hcontra
          exact ihne hcontra
        · intro st' h
          unfold run_app at h
          rw [if_neg hq, hli] at h
          exact ihok st' h

/-- A status screen as created at startup. -/
def demoScreen : Screen := Screen.create .status (80, 24)

/-- The initial application state with a single status screen. -/
def demoState : AppState :=
  { quit := false, screens := [demoScreen], termSize := (80, 24),
    editorEnv := some "vim" }

/-- Witness for C2 at the initial state with a quit key: three loop
iterations never hit the `No screen` panic. -/
theorem no_screen_panic_unreachable_witness :
    run_app 3 demoState [EventInput.keyPress (some Op.Quit)] ≠
      Except.error Panic.noScreen :=
  (no_screen_panic_unreachable 3 demoState [EventInput.keyPress (some Op.Quit)]
    (by decide)).1

/-- C6: on a quit signal from the active screen, when the stack holds more
than one screen (its `dropLast` is non-empty) exactly the top screen is
popped, the screen beneath becomes active and `refresh_items` is invoked
on it (the `modifyLast Screen.refresh_items` on the popped stack), and
the loop continues (`quit = false`); when the popped screen was the last
one the stack becomes empty with the quit flag set, and `run_app` then
terminates without handling any further event, returning the state
unchanged for every fuel and event sequence. -/
theorem quit_pops_and_refreshes (st : AppState)
    (_hq : st.quit = false) (hs : st.screens ≠ []) :
    (st.screens.dropLast ≠ [] →
      handle_events st (.keyPress (some Op.Quit)) =
        .ok { st with quit := false,
                      screens := modifyLast Screen.refresh_items st.screens.dropLast }) ∧
    (st.screens.dropLast = [] →
      handle_events st (.keyPress (some Op.Quit)) =
        .ok { st with quit := true, screens := [] }) ∧
    (∀ fuel evs,
      run_app fuel { st with quit := true, screens := ([] : List Screen) } evs =
        .ok { st with quit := true, screens := [] }) := by
  obtain ⟨sc, hsc⟩ : ∃ sc, st.screens.getLast? = some sc := by
    cases h : st.screens.getLast? with
    | none => exact absurd (List.getLast?_eq_none_iff.mp h) hs
    | some sc => exact ⟨sc, rfl⟩
  have h1 : (modifyTop Screen.clear_finished_command st).screens.getLast? =
      some (Screen.clear_finished_command sc) := by
    simp [modifyTop, modifyLast_getLast?, hsc]
  have h2 : handle_action (modifyTop Screen.clear_finished_command st) (some Op.Quit) =
      .ok { st with quit := true,
                    screens := modifyLast Screen.clear_finished_command st.screens } := by
    unfold handle_action
    rw [h1]
    rfl
  have h3 : handle_events st (.keyPress (some Op.Quit)) =
      .ok (pop_on_quit
        { st with quit := true,
                  screens := modifyLast Screen.clear_finished_command st.screens }) := by
    simp [handle_events, hsc, h2]
  have hdrop : (modifyLast Screen.clear_finished_command st.screens).dropLast =
      st.screens.dropLast := modifyLast_dropLast _ _
  refine ⟨?_, ?_, ?_⟩
  · intro hbeneath
    obtain ⟨s2, hs2⟩ : ∃ s2, st.screens.dropLast.getLast? = some s2 := by
      cases h : st.screens.dropLast.getLast? with
      | none => exact absurd (List.getLast?_eq_none_iff.mp h) hbeneath
      | some s2 => exact ⟨s2, rfl⟩
    rw [h3]
    unfold pop_on_quit
    simp only [hdrop, hs2, if_true]
  · intro hlast
    rw [h3]
    unfold pop_on_quit
    simp only [hdrop, hlast]
    rfl
  · intro fuel evs
    cases fuel with
    | zero => rfl
    | succ n =>
      unfold run_app
      rw [if_pos rfl]

/-- A show screen as pushed by drilling into a reference. -/
def demoShowScreen : Screen := Screen.create (.show ["HEAD"]) (80, 24)

/-- A two-screen stack: the root status screen with a show screen on top. -/
def demoState2 : AppState :=
  { quit := false, screens := [demoScreen, demoShowScreen], termSize := (80, 24),
    editorEnv := some "vim" }

/-- Witness for C6 on a two-screen stack: quitting the show screen pops it
and refreshes the status screen beneath. -/
theorem quit_pops_and_refreshes_witness :
    handle_events demoState2 (.keyPress (some Op.Quit)) =
      .ok { demoState2 with
            quit := false,
            screens := modifyLast Screen.refresh_items demoState2.screens.dropLast } :=
  (quit_pops_and_refreshes demoState2 rfl (by decide)).1 (by decide)

/-- C7: for every stack with a root screen (any depth), the `Log` operation
discards all screens above the root and pushes a fresh log screen, so
the resulting stack is exactly the root with the new log screen on top. -/
theorem log_discards_above_root (size : Nat × Nat) (root : Screen)
    (rest : List Screen) :
    goto_log_screen size (root :: rest) =
      .ok [root, Screen.create (.log []) size] := by
  simp [goto_log_screen]

/-- C8: after every handled event (any event input whatsoever, including
navigation, refresh and list-shrinking operations), the loop body clamps
the active screen's cursor, and the clamped cursor of the resulting
active screen is `0` when its visible item count is `0` and lies in
`[0, N-1]` when the count is `N > 0`. -/
theorem cursor_clamped_after_event (st st' : AppState) (ev : EventInput)
    (s : Screen) (h : loop_iter st ev = Except.ok st')
    (hs : st'.screens.getLast? = some s) :
    (s.visibleCount = 0 → s.cursor = 0) ∧
    (0 < s.visibleCount → s.cursor < s.visibleCount) := by
  unfold loop_iter at h
  cases hev : handle_events (modifyTop Screen.handle_command_output st) ev with
  | error p => rw [hev] at h; cases h
  | ok st1 =>
    rw [hev] at h
    cases h
    simp only [modifyTop, modifyLast_getLast?] at hs
    cases ht : st1.screens.getLast? with
    | none => rw [ht] at hs; cases hs
    | some t =>
      rw [ht] at hs
      simp only [Option.map_some'] at hs
      cases hs
      constructor
      · intro h0
        have h0' : t.visibleCount = 0 := by
          simpa [Screen.clamp_cursor] using h0
        simp [Screen.clamp_cursor, h0']
      · intro hpos
        have hpos' : 0 < t.visibleCount := by
          simpa [Screen.clamp_cursor] using hpos
        rw [show (Screen.clamp_cursor t).visibleCount = t.visibleCount from rfl,
          show (Screen.clamp_cursor t).cursor =
            if t.visibleCount = 0 then 0 else min t.cursor (t.visibleCount - 1) from rfl,
          if_neg (Nat.pos_iff_ne_zero.mp hpos')]
        omega

/-- A screen whose cursor points past the end of its visible list. -/
def clampDemoScreen : Screen :=
  { kind := .status, size := (80, 24), cursor := 5, visibleCount := 3,
    selectedAct := none, refreshCount := 0, issued := [], commandShown := false }

/-- A state whose active screen needs clamping. -/
def clampDemoState : AppState :=
  { quit := false, screens := [clampDemoScreen], termSize := (80, 24),
    editorEnv := none }

/-- Witness for C8: after one loop iteration on a poll timeout, the active
screen's clamped cursor is inside the bounds of its 3 visible items. -/
theorem cursor_clamped_after_event_witness :
    (Screen.clamp_cursor clampDemoScreen).cursor <
        (Screen.clamp_cursor clampDemoScreen).visibleCount :=
  (cursor_clamped_after_event clampDemoState
    (modifyTop Screen.clamp_cursor (modifyTop Screen.handle_command_output clampDemoState))
    .pollTimeout (Screen.clamp_cursor clampDemoScreen) rfl rfl).2 (by decide)

/-- C9: with a hunk context, the terminal editors `vi`, `vim`, `nvim` and
`nano` are invoked with the flag `+<new_start>` followed by the path;
every other resolved editor gets the single argument `<path>:<new_start>`;
with no hunk context the path alone is passed. -/
theorem editor_argument_shape (editor delta : String) (h : Hunk) :
    (editor = "vi" ∨ editor = "vim" ∨ editor = "nvim" ∨ editor = "nano" →
      editor_cmd (some editor) delta (some h) =
        .ok { program := editor, args := ["+" ++ toString h.new_start, delta] }) ∧
    (¬(editor = "vi" ∨ editor = "vim" ∨ editor = "nvim" ∨ editor = "nano") →
      editor_cmd (some editor) delta (some h) =
        .ok { program := editor, args := [delta ++ ":" ++ toString h.new_start] }) ∧
    editor_cmd (some editor) delta none =
      .ok { program := editor, args := [delta] } := by
  refine ⟨?_, ?_, rfl⟩
  · intro hterm
    simp [editor_cmd, hterm]
  · intro hother
    simp [editor_cmd, hother]

/-- The hunk of Scenario A: two lines added to `a.txt` at new-start 10. -/
def demoHunk : Hunk :=
  { old_file := "a.txt", new_file := "a.txt", old_start := 9, old_count := 0,
    new_start := 10, new_count := 2,
    lines := [{ origin := .addition, text := "line one" },
              { origin := .addition, text := "line two" }] }

/-- Witness for C9: `vim` gets `+10 a.txt`, a GUI-style editor gets
`a.txt:10`. -/
theorem editor_argument_shape_witness :
    editor_cmd (some "vim") "a.txt" (some demoHunk) =
        .ok { program := "vim", args := ["+10", "a.txt"] } ∧
    editor_cmd (some "code") "a.txt" (some demoHunk) =
        .ok { program := "code", args := ["a.txt:10"] } := by
  constructor
  · rw [(editor_argument_shape "vim" "a.txt" demoHunk).1 (Or.inr (Or.inl rfl))]
    rfl
  · rw [(editor_argument_shape "code" "a.txt" demoHunk).2.1 (by decide)]
    rfl

/-- C1 counterexample: invoking `Stage` on a `Ref` item does not resolve to
a no-op — the `todo` match arm is hit, which aborts the process, so the
claimed "no-op that leaves all state unchanged and never causes a fatal
error" is false at this concrete input. -/
theorem stage_on_ref_is_not_noop :
    handle_target_action (some "vim") (some (.Ref "main")) .Stage =
        .panic .todoUnimplemented ∧
    handle_target_action (some "vim") (some (.Ref "main")) .Stage ≠
        .noop := by
  exact ⟨rfl, by decide⟩

/-- C1 amended: when the selected item carries no `Actionable`, every target
op is a silent no-op; but the (`Actionable` × `Op`) pairs with no
supported action — `Stage` and `Unstage` on a `Ref`, `Unstage` on an
`Untracked` file, and every target op on a `DiffLine` — hit an
unimplemented match arm that aborts the process instead of resolving to
a no-op. -/
theorem target_op_matrix (env : Option String) (op : TargetOp)
    (r f : String) (l : DiffLine) :
    handle_target_action env none op = .noop ∧
    handle_target_action env (some (.Ref r)) .Stage = .panic .todoUnimplemented ∧
    handle_target_action env (some (.Ref r)) .Unstage = .panic .todoUnimplemented ∧
    handle_target_action env (some (.Untracked f)) .Unstage =
        .panic .todoUnimplemented ∧
    handle_target_action env (some (.DiffLine l)) op = .panic .todoUnimplemented := by
  refine ⟨rfl, rfl, rfl, rfl, ?_⟩
  cases op <;> rfl

/-- C3 counterexample: when the wait step itself fails, `open_subscreen`
returns the error before the restore steps, so the terminal display
state is left exactly as it was — the cursor is not hidden and the
screen is not cleared, falsifying the claimed restoration on every exit
path. -/
theorem failing_wait_skips_restore :
    open_subscreen { spawnOk := true, writeOk := true, waitResult := none }
        { cursorHidden := false, cleared := false } =
      (false, { cursorHidden := false, cleared := false }) := rfl

/-- C3 amended: the terminal display state is restored (cursor hidden,
screen cleared) on every exit path on which the wait step returns —
child success and child nonzero exit alike; but when spawn, the stdin
write, or wait itself fails, the io error propagates to the caller
before the restore steps and the terminal state is left unchanged. -/
theorem subscreen_restore_on_wait_return (exitSuccess : Bool) (t : TermState)
    (writeOk : Bool) (waitResult : Option Bool) :
    open_subscreen { spawnOk := true, writeOk := true, waitResult := some exitSuccess } t =
        (true, { cursorHidden := true, cleared := true }) ∧
    open_subscreen { spawnOk := true, writeOk := true, waitResult := none } t =
        (false, t) ∧
    open_subscreen { spawnOk := false, writeOk := writeOk, waitResult := waitResult } t =
        (false, t) ∧
    open_subscreen { spawnOk := true, writeOk := false, waitResult := waitResult } t =
        (false, t) := ⟨rfl, rfl, rfl, rfl⟩

/-- A state whose active screen has an untracked file selected and whose
environment has no `EDITOR` set. -/
def editorUnsetState : AppState :=
  { quit := false,
    screens := [{ demoScreen with selectedAct := some (.Untracked "new.txt") }],
    termSize := (80, 24), editorEnv := none }

/-- C4 counterexample: invoking `ShowOrEdit` on an untracked file with
`EDITOR` unset makes the whole application run abort with the
`EDITOR not set` expect — the error is not confined to the edit action
and the screen does not remain usable, falsifying the claim at this
concrete input (no process is spawned, which is the part of the claim
that does hold). -/
theorem editor_unset_aborts_whole_app :
    run_app 2 editorUnsetState
        [EventInput.keyPress (some (Op.Target TargetOp.ShowOrEdit))] =
      Except.error Panic.editorNotSet := rfl

/-- C4 amended: when `ShowOrEdit` needs an editor and the `EDITOR`
environment variable is unset, no process is spawned, but the failure is
the process-aborting `EDITOR not set` expect in `editor_cmd`, which
aborts the whole application rather than reporting the error and
aborting only the edit action. -/
theorem editor_unset_panics (f : String) (mh : Option Hunk) :
    editor_cmd none f mh = .error .editorNotSet ∧
    handle_target_action none (some (.Untracked f)) .ShowOrEdit =
        .panic .editorNotSet := ⟨rfl, rfl⟩

/-- C5: for every hunk, `Stage` and `Unstage` send byte-for-byte the same
patch (`h.format_patch`) to the external tool's stdin; the two differ
only in the command invoked, the unstage command being the stage command
plus the reverse-apply flag. -/
theorem stage_unstage_same_bytes (env : Option String) (h : Hunk) :
    handle_target_action env (some (.Hunk h)) .Stage =
        .issue h.format_patch .stagePatch ∧
    handle_target_action env (some (.Hunk h)) .Unstage =
        .issue h.format_patch .unstagePatch ∧
    GitCmd.unstagePatch.argv = GitCmd.stagePatch.argv ++ ["--reverse"] :=
  ⟨rfl, rfl, rfl⟩

/-- C10: a pending transient op takes precedence in the popup area — for
every command state (including a command with accumulated output) the
popup is exactly the transient menu's keybind listing and contains none
of the command's lines; when neither a transient op nor a command
exists, the popup is empty and no popup area is allocated. -/
theorem transient_menu_precedence (t : TransientOp) (c : Option IssuedCommand) :
    ui_popup { pending_transient_op := some t, command := c } =
        format_transient_menu t ∧
    ui_popup { pending_transient_op := some t, command := c } =
        [.transientMenu t] ∧
    ui_popup { pending_transient_op := none, command := none } = [] ∧
    ui_popup_len { pending_transient_op := none, command := none } = 0 :=
  ⟨rfl, rfl, rfl, rfl⟩

end Gitu
